import Mathlib

/-!
Verification of the singularity-mcp request-normalization and
response-shape-reconciliation layer.

The definitions below are a shallow embedding of
`src/singularity_mcp/api.py` and `src/singularity_mcp/server.py`:

* JSON values are modelled by the inductive `Json`; Python dicts become
  association lists (keys unique in practice, first match wins, as for a
  dict), Python `None` becomes `Json.null` or `Option.none` depending on
  position.
* HTTP traffic is modelled at the boundary: an operation is a pure
  function from its arguments (and, for multi-call operations, an
  explicit remote state) to the request parameters / body it builds and
  the reconciled result; a raised Python exception becomes
  `Except.error`.
* Instants are modelled as integer minutes since the Unix epoch
  (1970-01-01T00:00:00Z); a fixed-offset local zone is an integer offset
  in minutes, so Python `astimezone(timezone.utc)` on a fixed-offset
  aware datetime is subtraction of the offset, and
  `replace(hour=0, minute=0, second=0, microsecond=0)` is truncation to
  the enclosing multiple of 1440 minutes.
-/

namespace SingularityMCP

/-- JSON values as returned by `response.json()` in `api.py`.
Numbers are restricted to integers, which is all the claims need. -/
inductive Json : Type where
  | null : Json
  | bool : Bool → Json
  | num : Int → Json
  | str : String → Json
  | arr : List Json → Json
  | obj : List (String × Json) → Json

/-- Association-list lookup, modelling `d[k]` / `k in d` on a Python dict. -/
def assocLookup : List (String × Json) → String → Option Json
  | [], _ => none
  | (k, v) :: rest, key => if k = key then some v else assocLookup rest key

/-! ## List-style response reconciliation (api.py)

Each reconciler is the tail of the corresponding `list_*` method in
`api.py`, applied to the parsed response `result` of the GET request. -/

/-- Python `len(v)`: defined for sized values (list, dict, str), and a
`TypeError` for `None`, booleans and numbers. -/
def pyLen : Json → Option Nat
  | Json.str s => some s.length
  | Json.arr xs => some xs.length
  | Json.obj fields => some fields.length
  | _ => none

/-- The message of the `TypeError` raised by `len()` on an unsized value. -/
def pyLenTypeError : String := "TypeError: object has no len()"

/-- `api.py` `SingularityAPI.list_tasks`, lines 85-96: if the response is
a dict containing the key `"tasks"`, the code first logs an f-string that
embeds `len(tasks)` (line 88) — evaluated eagerly, so a field value with
no Python length (None, a bool, a number) raises `TypeError` — and only
then returns `result["tasks"]`; else if the response is a list, it logs
its length (always defined) and returns it; else it returns `[]`. -/
def list_tasks_reconcile (result : Json) : Except String Json :=
  match result with
  | Json.obj fields =>
      match assocLookup fields "tasks" with
      | some v =>
          match pyLen v with
          | some _ => Except.ok v
          | none => Except.error pyLenTypeError
      | none => Except.ok (Json.arr [])
  | Json.arr xs => Except.ok (Json.arr xs)
  | _ => Except.ok (Json.arr [])

/-- `api.py` `SingularityAPI.list_projects`, lines 263-274: same shape
branching with the key `"projects"`, including the eager
`len(projects)` f-string on line 266 that raises `TypeError` on an
unsized field value. -/
def list_projects_reconcile (result : Json) : Except String Json :=
  match result with
  | Json.obj fields =>
      match assocLookup fields "projects" with
      | some v =>
          match pyLen v with
          | some _ => Except.ok v
          | none => Except.error pyLenTypeError
      | none => Except.ok (Json.arr [])
  | Json.arr xs => Except.ok (Json.arr xs)
  | _ => Except.ok (Json.arr [])

/-- `api.py` `SingularityAPI.list_tags`, lines 404-411: same shape
branching with the key `"tags"`, but with no length log in the dict
branch — the field value is returned verbatim whatever it is. -/
def list_tags_reconcile (result : Json) : Json :=
  match result with
  | Json.obj fields =>
      match assocLookup fields "tags" with
      | some v => v
      | none => Json.arr []
  | Json.arr xs => Json.arr xs
  | _ => Json.arr []

/-- `api.py` `SingularityAPI.list_habits`, line 339:
`return result if isinstance(result, list) else []`. Note that, unlike
tasks, projects and tags, this method has no dict-unwrapping branch. -/
def list_habits_reconcile (result : Json) : Json :=
  match result with
  | Json.arr xs => Json.arr xs
  | _ => Json.arr []

/-! ## Single-entity response reconciliation (api.py) -/

/-- The guard `return result if isinstance(result, dict) else {}` shared
verbatim by `get_task`, `update_task`, `complete_task`, `set_task_tags`,
`get_project`, `create_project`, `update_project`, `create_habit`,
`mark_habit`, `list_tags`-siblings `create_tag`, `get_tag`, `update_tag`
and `create_checklist_item` in `api.py`. -/
def dictOrEmpty (result : Json) : Json :=
  match result with
  | Json.obj fields => Json.obj fields
  | _ => Json.obj []

/-- `api.py` `SingularityAPI.create_task`, lines 153-155.  After the POST,
the code logs an f-string that embeds `result.get("id", "unknown ID")`
BEFORE the `isinstance` guard; the f-string argument is evaluated eagerly,
so `result.get` raises `AttributeError` whenever the parsed response is
not a dict (a list, a scalar, or `None` from a 204 body), and the
`return result if isinstance(result, dict) else {}` on line 155 is never
reached for exactly the responses it was meant to absorb. -/
def create_task_finish (result : Json) : Except String Json :=
  match result with
  | Json.obj fields => Except.ok (Json.obj fields)
  | _ => Except.error "AttributeError: object has no attribute get"

/-! ## create_task request shaping (api.py lines 103-155, server.py lines 496-515) -/

/-- The whitespace characters `str.strip()` removes (space, tab, newline,
carriage return, vertical tab, form feed). -/
def pyIsSpace (c : Char) : Bool :=
  c = ' ' || c = '\t' || c = '\n' || c = '\r' || c = '\x0b' || c = '\x0c'

/-- Python `str.startswith(pre)`, as used on `project_id` in `api.py`
line 135 (a membership/functional model over the character list, since
the built-in String.startsWith does not reduce in the kernel). -/
def pyStartsWith (s pre : String) : Bool := List.isPrefixOf pre.data s.data

/-- Python `str.strip()` with no argument (whitespace trim on both ends),
as used on `project_id` in `api.py` line 133. -/
def pyStrip (s : String) : String :=
  String.mk (((s.data.dropWhile pyIsSpace).reverse.dropWhile pyIsSpace).reverse)

/-- An optional string request field guarded by Python truthiness
(`if start: data["start"] = start`): included only when supplied and
non-empty. -/
def optStrField (key : String) (v : Option String) : List (String × Json) :=
  match v with
  | some s => if s = "" then [] else [(key, Json.str s)]
  | none => []

/-- The outgoing POST body of `create_task` together with the warnings the
method logs while building it. -/
structure CreateTaskRequest where
  data : List (String × Json)
  warnings : List String

/-- The `project_id` validation block of `create_task` (`api.py` lines
132-145): the `projectId` body entry (first component) and the warnings
logged (second component).  The field is attached only when `project_id`
is truthy (`if project_id and project_id.strip()`) and starts with
`"P-"`; every other case — including an absent `project_id` — logs a
warning. -/
def project_field (project_id : Option String) : List (String × Json) × List String :=
  match project_id with
  | some s =>
      if s ≠ "" ∧ pyStrip s ≠ "" then
        if pyStartsWith s "P-" then ([("projectId", Json.str s)], [])
        else ([], ["Invalid project_id format: expected P-XXX"])
      else if s = "" then
        ([], ["project_id is empty string, task will be created without project"])
      else ([], ["No project_id provided, task will be created without project"])
  | none => ([], ["No project_id provided, task will be created without project"])

/-- `api.py` `SingularityAPI.create_task`, lines 126-151: the body always
holds `title` and `priority`; `start`, `note` and `parent` are added when
truthy; `projectId` is added per `project_field`. -/
def create_task_data (title : String) (start note : Option String) (priority : Int)
    (project_id : Option String) (parent : Option String) : CreateTaskRequest :=
  let base := [("title", Json.str title), ("priority", Json.num priority)]
    ++ optStrField "start" start ++ optStrField "note" note
  { data := base ++ (project_field project_id).1 ++ optStrField "parent" parent
    warnings := (project_field project_id).2 }

/-- `server.py` `_execute_tool`, create_task branch, lines 496-515: an
empty-string `project_id` argument is replaced by `None` before the call
into `api.create_task`. -/
def create_task_tool (title : String) (start note : Option String) (priority : Int)
    (project_id_arg : Option String) (parent : Option String) : CreateTaskRequest :=
  let pid := match project_id_arg with
    | some s => if s = "" then none else some s
    | none => none
  create_task_data title start note priority pid parent

/-! ## update_task request shaping (api.py lines 157-188, server.py lines 517-524) -/

/-- An optional string request field guarded by `is not None` (empty
strings are included), as in `update_task`. -/
def optStrFieldSome (key : String) (v : Option String) : List (String × Json) :=
  match v with
  | some s => [(key, Json.str s)]
  | none => []

/-- An optional integer request field guarded by `is not None`. -/
def optIntFieldSome (key : String) (v : Option Int) : List (String × Json) :=
  match v with
  | some n => [(key, Json.num n)]
  | none => []

/-- `api.py` `SingularityAPI.update_task`, lines 167-186: the PATCH body
holds exactly the fields supplied (`is not None`), in declaration order. -/
def update_task_data (title start note : Option String) (priority : Option Int)
    (project_id : Option String) : List (String × Json) :=
  optStrFieldSome "title" title ++ optStrFieldSome "start" start
    ++ optStrFieldSome "note" note ++ optIntFieldSome "priority" priority
    ++ optStrFieldSome "projectId" project_id

/-- `server.py` `_execute_tool`, update_task branch, lines 517-524: the
tool forwards only `title`, `start`, `note` and `priority`; `project_id`
is never passed. -/
def update_task_tool (title start note : Option String) (priority : Option Int) :
    List (String × Json) :=
  update_task_data title start note priority none

/-! ## Tag add/remove state machine (api.py lines 201-243)

The remote holds, per task id, the current list of tag ids; `PATCH
/task/{id}` with body `{"tags": l}` replaces that list (full tag-set
replacement, as `set_task_tags` documents).  An operation records the
remote round trips it performs as `TagEvent`s and returns the task (its
tag list) as reconciled by the final call. -/

/-- Remote tag state: task id to current tag-id list. -/
abbrev RemoteTaskTags := List (String × List String)

def tagsLookup : RemoteTaskTags → String → Option (List String)
  | [], _ => none
  | (k, v) :: rest, key => if k = key then some v else tagsLookup rest key

/-- `task.get("tags", [])` after `get_task`: the current tag list of the
task, or `[]` when the task record has none. -/
def getTaskTags (st : RemoteTaskTags) (task_id : String) : List String :=
  (tagsLookup st task_id).getD []

/-- Remote application of the tag-set replacement PATCH. -/
def tagsUpdate : RemoteTaskTags → String → List String → RemoteTaskTags
  | [], k, v => [(k, v)]
  | (k', v') :: rest, k, v =>
      if k' = k then (k, v) :: rest else (k', v') :: tagsUpdate rest k v

/-- One remote round trip performed by a tag operation. -/
inductive TagEvent : Type where
  | read (task_id : String)
  | write (task_id : String) (tags : List String)
deriving DecidableEq

/-- Result of a derived tag operation: final remote state, remote round
trips in order, and the task (its tag list) as returned to the caller. -/
structure TagOpResult where
  state : RemoteTaskTags
  events : List TagEvent
  taskTags : List String
deriving DecidableEq

/-- `api.py` `SingularityAPI.set_task_tags`, lines 201-209, seen from the
remote side: replaces the tag set of the task. -/
def set_task_tags (st : RemoteTaskTags) (task_id : String) (tag_ids : List String) :
    RemoteTaskTags :=
  tagsUpdate st task_id tag_ids

/-- `api.py` `SingularityAPI.add_task_tag`, lines 211-226: read the
current tags; if the tag is absent, append it and issue the replacement
write, returning the updated task; otherwise return the task read. -/
def add_task_tag (st : RemoteTaskTags) (task_id tag_id : String) : TagOpResult :=
  let current := getTaskTags st task_id
  if tag_id ∈ current then
    { state := st, events := [TagEvent.read task_id], taskTags := current }
  else
    let newTags := current ++ [tag_id]
    { state := set_task_tags st task_id newTags
      events := [TagEvent.read task_id, TagEvent.write task_id newTags]
      taskTags := newTags }

/-- `api.py` `SingularityAPI.remove_task_tag`, lines 228-243: read the
current tags; if the tag is present, drop its first occurrence
(`list.remove`) and issue the replacement write; otherwise return the
task read, with no write. -/
def remove_task_tag (st : RemoteTaskTags) (task_id tag_id : String) : TagOpResult :=
  let current := getTaskTags st task_id
  if tag_id ∈ current then
    let newTags := current.erase tag_id
    { state := set_task_tags st task_id newTags
      events := [TagEvent.read task_id, TagEvent.write task_id newTags]
      taskTags := newTags }
  else
    { state := st, events := [TagEvent.read task_id], taskTags := current }

/-! ## Day-boundary derivation (server.py lines 31-74)

`get_local_timezone` returns the host clock offset
(`datetime.now().astimezone().tzinfo`), a fixed offset here modelled in
minutes.  `get_today_range_utc` takes "now" in that zone, truncates to
local midnight, adds one day, and converts both boundaries to UTC by
plain offset subtraction. -/

/-- `server.py` `get_today_range_utc`, lines 55-74, over minutes since
the epoch. -/
def get_today_range_utc (localOffsetMin nowUtcMin : Int) : Int × Int :=
  let nowLocal := nowUtcMin + localOffsetMin
  let todayStartLocal := nowLocal - nowLocal % 1440
  let tomorrowStartLocal := todayStartLocal + 1440
  (todayStartLocal - localOffsetMin, tomorrowStartLocal - localOffsetMin)

/-- `get_today_range_utc` with the process environment in scope: the
source function consults only the host clock
(`datetime.now().astimezone()`); no environment variable or other
configuration value is read anywhere in `server.py` or `api.py` except
`SINGULARITY_API_TOKEN` in `get_api`, so the environment argument is
ignored. -/
def get_today_range_utc_env (_env : String → Option String)
    (localOffsetMin nowUtcMin : Int) : Int × Int :=
  get_today_range_utc localOffsetMin nowUtcMin

/-! ## Rendering UTC instants (datetime.isoformat on an aware UTC datetime) -/

/-- Civil date from a day count relative to 1970-01-01 (standard era-based
conversion, valid for all day counts). -/
def civilFromDays (z0 : Int) : Int × Nat × Nat :=
  let z := z0 + 719468
  let era : Int := (if 0 ≤ z then z else z - 146096) / 146097
  let doe : Nat := (z - era * 146097).toNat
  let yoe : Nat := (doe - doe / 1460 + doe / 36524 - doe / 146096) / 365
  let y : Int := (yoe : Int) + era * 400
  let doy : Nat := doe - (365 * yoe + yoe / 4 - yoe / 100)
  let mp : Nat := (5 * doy + 2) / 153
  let d : Nat := doy - (153 * mp + 2) / 5 + 1
  let m : Nat := if mp < 10 then mp + 3 else mp - 9
  (if m ≤ 2 then y + 1 else y, m, d)

def pad2 (n : Nat) : String := if n < 10 then "0" ++ toString n else toString n

/-- `datetime.isoformat()` on a whole-minute aware UTC datetime:
`YYYY-MM-DDTHH:MM:00+00:00`. -/
def isoUTC (minutes : Int) : String :=
  let day := minutes / 1440
  let rem := (minutes % 1440).toNat
  let c := civilFromDays day
  toString c.1 ++ "-" ++ pad2 c.2.1 ++ "-" ++ pad2 c.2.2 ++ "T"
    ++ pad2 (rem / 60) ++ ":" ++ pad2 (rem % 60) ++ ":00+00:00"

/-! ## list_tasks query parameters (api.py lines 65-80) -/

/-- `str(b).lower()` on a Python bool. -/
def pyBoolStr (b : Bool) : String := if b then "true" else "false"

/-- `",".join(tag_ids)`. -/
def commaJoin (l : List String) : String := String.intercalate "," l

/-- `api.py` `SingularityAPI.list_tasks`, lines 65-80: the GET query
parameters.  The three boolean flags are always present as lowercase
strings; every other filter is added only when truthy (non-empty string,
non-empty list, non-zero count). -/
def list_tasks_params (project_id : Option String) (tag_ids : Option (List String))
    (include_archived include_removed include_all_recurrence : Bool)
    (start_date_from start_date_to : Option String) (max_count : Option Int) :
    List (String × String) :=
  [("includeArchived", pyBoolStr include_archived),
   ("includeRemoved", pyBoolStr include_removed),
   ("includeAllRecurrenceInstances", pyBoolStr include_all_recurrence)]
  ++ (match project_id with
      | some s => if s = "" then [] else [("projectId", s)]
      | none => [])
  ++ (match tag_ids with
      | some l => if l = [] then [] else [("tagIds", commaJoin l)]
      | none => [])
  ++ (match start_date_from with
      | some s => if s = "" then [] else [("startDateFrom", s)]
      | none => [])
  ++ (match start_date_to with
      | some s => if s = "" then [] else [("startDateTo", s)]
      | none => [])
  ++ (match max_count with
      | some n => if n = 0 then [] else [("maxCount", toString n)]
      | none => [])

def paramLookup : List (String × String) → String → Option String
  | [], _ => none
  | (k, v) :: rest, key => if k = key then some v else paramLookup rest key

/-- `server.py` `_execute_tool`, get_today_tasks branch, lines 596-611:
derive the UTC range, render both boundaries with `isoformat`, and call
`list_tasks` with only those two filters (recurrence flag false,
`max_count` left at its default 100). -/
def get_today_tasks_params (localOffsetMin nowUtcMin : Int) : List (String × String) :=
  let range := get_today_range_utc localOffsetMin nowUtcMin
  list_tasks_params none none false false false
    (some (isoUTC range.1)) (some (isoUTC range.2)) (some 100)

/-! ## mark_habit (api.py lines 363-382, server.py lines 562-576) -/

/-- `api.py` `SingularityAPI.mark_habit`, lines 376-380: the POST body. -/
def mark_habit_body (habit_id date : String) (progress : Int) : List (String × Json) :=
  [("habit", Json.str habit_id), ("date", Json.str date), ("progress", Json.num progress)]

/-- `server.py` lines 565-570: local midnight of the current day,
converted to UTC and rendered with `isoformat`. -/
def today_start_utc_iso (localOffsetMin nowUtcMin : Int) : String :=
  let nowLocal := nowUtcMin + localOffsetMin
  isoUTC (nowLocal - nowLocal % 1440 - localOffsetMin)

/-- `server.py` `_execute_tool`, mark_habit branch, lines 562-576: a
missing or falsy (empty) `date` argument defaults to local midnight in
UTC; `progress` is 2 when `done` is true or omitted, 1 when false. -/
def mark_habit_tool (habit_id : String) (date_arg : Option String)
    (done_arg : Option Bool) (localOffsetMin nowUtcMin : Int) :
    List (String × Json) :=
  let habit_date := match date_arg with
    | some d => if d = "" then today_start_utc_iso localOffsetMin nowUtcMin else d
    | none => today_start_utc_iso localOffsetMin nowUtcMin
  let progress : Int := if done_arg.getD true then 2 else 1
  mark_habit_body habit_id habit_date progress

/-! ## Tool dispatcher (server.py lines 77-88, 424-438, 441-614) -/

/-- What the dispatcher hands back to the transport for one tool call:
either `json.dumps` of the result, or the single error text line. -/
inductive ToolOutcome : Type where
  | success (result : Json)
  | errorText (text : String)

/-- The message of the `ValueError` raised by `get_api` when the token is
absent. -/
def tokenMissingMsg : String :=
  "SINGULARITY_API_TOKEN environment variable is required. Get your token at https://me.singularity-app.com"

/-- `server.py` `get_api`, lines 77-88: raises when
`SINGULARITY_API_TOKEN` is unset or falsy (empty). -/
def get_api (token : Option String) : Except String Unit :=
  match token with
  | some t => if t = "" then Except.error tokenMissingMsg else Except.ok ()
  | none => Except.error tokenMissingMsg

/-- The tool names of the `_execute_tool` dispatch chain, in source
order (server.py lines 445-611). -/
def knownToolNames : List String :=
  ["list_tasks", "get_task", "create_task", "update_task", "complete_task",
   "delete_task", "list_projects", "create_project", "delete_project",
   "list_habits", "create_habit", "mark_habit", "list_tags", "create_tag",
   "add_checklist_item", "get_today_tasks"]

/-- `server.py` `_execute_tool`, lines 441-614: the name dispatch.  The
body of each known branch (argument extraction, remote calls, result
shaping — any of which may raise) is abstracted as `run name`, an
`Except` at the collaborator boundary; an unmapped name raises
`ValueError(f"Unknown tool: {name}")`. -/
def execute_tool (run : String → Except String Json) (name : String) :
    Except String Json :=
  if name = "list_tasks" then run name
  else if name = "get_task" then run name
  else if name = "create_task" then run name
  else if name = "update_task" then run name
  else if name = "complete_task" then run name
  else if name = "delete_task" then run name
  else if name = "list_projects" then run name
  else if name = "create_project" then run name
  else if name = "delete_project" then run name
  else if name = "list_habits" then run name
  else if name = "create_habit" then run name
  else if name = "mark_habit" then run name
  else if name = "list_tags" then run name
  else if name = "create_tag" then run name
  else if name = "add_checklist_item" then run name
  else if name = "get_today_tasks" then run name
  else Except.error ("Unknown tool: " ++ name)

/-- `server.py` `call_tool`, lines 424-438.  Note that `api = get_api()`
runs BEFORE the `try` block: a configuration failure propagates out of
`call_tool` (the outer `Except.error`) instead of becoming an error text.
Inside the `try`, every exception from `_execute_tool` is caught and
rendered as the single line `"Error: " + str(e)`. -/
def call_tool (token : Option String) (run : String → Except String Json)
    (name : String) : Except String ToolOutcome :=
  match get_api token with
  | Except.error e => Except.error e
  | Except.ok _ =>
      Except.ok (match execute_tool run name with
        | Except.ok j => ToolOutcome.success j
        | Except.error e => ToolOutcome.errorText ("Error: " ++ e))

/-! ## Helper lemmas -/

theorem getTaskTags_tagsUpdate (st : RemoteTaskTags) (task_id : String)
    (l : List String) : getTaskTags (tagsUpdate st task_id l) task_id = l := by
  induction st with
  | nil => simp [tagsUpdate, getTaskTags, tagsLookup]
  | cons hd tl ih =>
      obtain ⟨k, v⟩ := hd
      by_cases h : k = task_id
      · simp [tagsUpdate, getTaskTags, tagsLookup, h]
      · simpa [tagsUpdate, getTaskTags, tagsLookup, h] using ih

theorem add_task_tag_mem (st : RemoteTaskTags) (task_id tag_id : String)
    (h : tag_id ∈ getTaskTags st task_id) :
    add_task_tag st task_id tag_id
      = { state := st, events := [TagEvent.read task_id],
          taskTags := getTaskTags st task_id } := by
  simp [add_task_tag, h]

theorem add_task_tag_not_mem (st : RemoteTaskTags) (task_id tag_id : String)
    (h : tag_id ∉ getTaskTags st task_id) :
    add_task_tag st task_id tag_id
      = { state := set_task_tags st task_id (getTaskTags st task_id ++ [tag_id]),
          events := [TagEvent.read task_id,
                     TagEvent.write task_id (getTaskTags st task_id ++ [tag_id])],
          taskTags := getTaskTags st task_id ++ [tag_id] } := by
  simp [add_task_tag, h]

/-! ## Claim theorems -/

/-- Claim C2: the today-range derivation truncates now (in the local
zone) to local midnight, adds exactly 24 hours, and shifts both instants
to UTC by the offset alone; for offset +3h and now =
2024-06-15T10:00:00+03:00 (UTC instant 2024-06-15T07:00:00Z, minute
28640580) it yields [2024-06-14T21:00:00Z, 2024-06-15T21:00:00Z), and the
get_today_tasks branch passes exactly these boundaries as the
startDateFrom / startDateTo filters of the list-tasks request. -/
theorem today_range_day_boundaries :
    (∀ ofs now : Int,
        (get_today_range_utc ofs now).1 = (now + ofs) - (now + ofs) % 1440 - ofs
        ∧ (get_today_range_utc ofs now).2 = (get_today_range_utc ofs now).1 + 1440)
    ∧ isoUTC 28640580 = "2024-06-15T07:00:00+00:00"
    ∧ get_today_range_utc 180 28640580 = (28639980, 28641420)
    ∧ isoUTC 28639980 = "2024-06-14T21:00:00+00:00"
    ∧ isoUTC 28641420 = "2024-06-15T21:00:00+00:00"
    ∧ paramLookup (get_today_tasks_params 180 28640580) "startDateFrom"
        = some "2024-06-14T21:00:00+00:00"
    ∧ paramLookup (get_today_tasks_params 180 28640580) "startDateTo"
        = some "2024-06-15T21:00:00+00:00" := by
  refine ⟨fun ofs now => ⟨rfl, ?_⟩, by decide, by decide, by decide, by decide,
    by decide, by decide⟩
  simp only [get_today_range_utc]
  ring

/-- Claim C3 (code bug at create_task): every single-entity operation
guards with `result if isinstance(result, dict) else {}`, so non-object
responses reconcile to an empty mapping — except `create_task`, which
evaluates `result.get("id", ...)` inside a log f-string before that
guard and therefore raises AttributeError on every non-object response
(list, scalar, or None from a 204 body). -/
theorem create_task_nondict_response_raises :
    create_task_finish (Json.arr [])
        = Except.error "AttributeError: object has no attribute get"
    ∧ create_task_finish Json.null
        = Except.error "AttributeError: object has no attribute get"
    ∧ create_task_finish (Json.str "ok")
        = Except.error "AttributeError: object has no attribute get"
    ∧ (∀ fields, create_task_finish (Json.obj fields) = Except.ok (Json.obj fields))
    ∧ dictOrEmpty (Json.arr []) = Json.obj []
    ∧ dictOrEmpty Json.null = Json.obj []
    ∧ dictOrEmpty (Json.str "x") = Json.obj []
    ∧ dictOrEmpty (Json.num 7) = Json.obj [] :=
  ⟨rfl, rfl, rfl, fun _ => rfl, rfl, rfl, rfl, rfl⟩

/-- Claim C9 counterexample: with a numeric timezone-offset override of 5
hours present in the environment (here: every environment variable reads
"5", so in particular any override variable is set), the derivation still
uses the host clock offset of 3 hours, and that differs from what the
overridden offset would produce — so the override is not honored. -/
theorem timezone_override_not_honored :
    get_today_range_utc_env (fun _ => some "5") 180 28640580
      = get_today_range_utc 180 28640580
    ∧ get_today_range_utc 180 28640580 ≠ get_today_range_utc (5 * 60) 28640580 :=
  ⟨rfl, by decide⟩

/-- Claim C9 amended: no timezone-offset override configuration exists;
the today-range derivation reads nothing from the environment and always
uses the host clock offset. -/
theorem today_range_ignores_environment :
    ∀ env env2 : String → Option String, ∀ ofs now : Int,
      get_today_range_utc_env env ofs now = get_today_range_utc_env env2 ofs now
      ∧ get_today_range_utc_env env ofs now = get_today_range_utc ofs now :=
  fun _ _ _ _ => ⟨rfl, rfl⟩

/-- Claim C10: the mark_habit tool sends progress 2 when done is true or
omitted and 1 when done is false, never 0; an omitted (or empty) date
argument defaults to the current local day at midnight converted to UTC —
the same instant as the start of the today range — rather than failing. -/
theorem mark_habit_progress_and_date :
    (∀ hid : String, ∀ d : Option String, ∀ done : Option Bool, ∀ ofs now : Int,
        assocLookup (mark_habit_tool hid d done ofs now) "progress"
          = some (Json.num (if done.getD true then 2 else 1)))
    ∧ (∀ hid : String, ∀ d : Option String, ∀ ofs now : Int,
        assocLookup (mark_habit_tool hid d none ofs now) "progress"
          = some (Json.num 2))
    ∧ (∀ hid : String, ∀ d : Option String, ∀ ofs now : Int,
        assocLookup (mark_habit_tool hid d (some true) ofs now) "progress"
          = some (Json.num 2))
    ∧ (∀ hid : String, ∀ d : Option String, ∀ ofs now : Int,
        assocLookup (mark_habit_tool hid d (some false) ofs now) "progress"
          = some (Json.num 1))
    ∧ (∀ hid : String, ∀ d : Option String, ∀ done : Option Bool, ∀ ofs now : Int,
        assocLookup (mark_habit_tool hid d done ofs now) "progress"
            = some (Json.num 2)
        ∨ assocLookup (mark_habit_tool hid d done ofs now) "progress"
            = some (Json.num 1))
    ∧ (∀ hid : String, ∀ done : Option Bool, ∀ ofs now : Int,
        assocLookup (mark_habit_tool hid none done ofs now) "date"
          = some (Json.str (today_start_utc_iso ofs now)))
    ∧ (∀ ofs now : Int,
        today_start_utc_iso ofs now = isoUTC (get_today_range_utc ofs now).1) := by
  refine ⟨fun hid d done ofs now => rfl, fun hid d ofs now => rfl,
    fun hid d ofs now => rfl, fun hid d ofs now => rfl,
    fun hid d done ofs now => ?_, fun hid done ofs now => rfl,
    fun ofs now => rfl⟩
  rcases done with _ | b
  · left; rfl
  · rcases b
    · right; rfl
    · left; rfl

/-- Claim C1 counterexample: `list_habits` does not unwrap an object
response — a response of the shape the claim requires it to accept,
`\x7b"habits": [h1]\x7d`, reconciles to the empty sequence instead of the
inner array. -/
theorem list_habits_object_not_unwrapped :
    list_habits_reconcile (Json.obj [("habits", Json.arr [Json.str "h1"])])
        = Json.arr []
    ∧ Json.arr [] ≠ Json.arr [Json.str "h1"] :=
  ⟨rfl, by simp⟩

/-- Claim C1 amended: list tasks and list projects return a bare-array
response as is; an object response containing the named field returns
that field whenever its value has a Python length (the inner array,
identical in order — or, degenerately, a string or object, returned
verbatim), but raises TypeError from the eager len() log when the value
is null, a boolean or a number; an object missing the field and every
scalar or null response reconcile to an empty sequence. List tags (which
logs no length) returns the named field of an object verbatim whatever
it is, and an empty sequence on the other shapes. List habits returns
only a bare array as is and reconciles every other shape — including an
object with a "habits" field — to an empty sequence. -/
theorem list_reconcile_shapes :
    (∀ xs, list_tasks_reconcile (Json.arr xs) = Except.ok (Json.arr xs))
    ∧ (∀ fields xs, assocLookup fields "tasks" = some (Json.arr xs) →
        list_tasks_reconcile (Json.obj fields) = Except.ok (Json.arr xs))
    ∧ (∀ fields s, assocLookup fields "tasks" = some (Json.str s) →
        list_tasks_reconcile (Json.obj fields) = Except.ok (Json.str s))
    ∧ (∀ fields gs, assocLookup fields "tasks" = some (Json.obj gs) →
        list_tasks_reconcile (Json.obj fields) = Except.ok (Json.obj gs))
    ∧ (∀ fields, assocLookup fields "tasks" = some Json.null →
        list_tasks_reconcile (Json.obj fields) = Except.error pyLenTypeError)
    ∧ (∀ fields b, assocLookup fields "tasks" = some (Json.bool b) →
        list_tasks_reconcile (Json.obj fields) = Except.error pyLenTypeError)
    ∧ (∀ fields n, assocLookup fields "tasks" = some (Json.num n) →
        list_tasks_reconcile (Json.obj fields) = Except.error pyLenTypeError)
    ∧ (∀ fields, assocLookup fields "tasks" = none →
        list_tasks_reconcile (Json.obj fields) = Except.ok (Json.arr []))
    ∧ list_tasks_reconcile Json.null = Except.ok (Json.arr [])
    ∧ (∀ b, list_tasks_reconcile (Json.bool b) = Except.ok (Json.arr []))
    ∧ (∀ n, list_tasks_reconcile (Json.num n) = Except.ok (Json.arr []))
    ∧ (∀ s, list_tasks_reconcile (Json.str s) = Except.ok (Json.arr []))
    ∧ (∀ xs, list_projects_reconcile (Json.arr xs) = Except.ok (Json.arr xs))
    ∧ (∀ fields xs, assocLookup fields "projects" = some (Json.arr xs) →
        list_projects_reconcile (Json.obj fields) = Except.ok (Json.arr xs))
    ∧ (∀ fields s, assocLookup fields "projects" = some (Json.str s) →
        list_projects_reconcile (Json.obj fields) = Except.ok (Json.str s))
    ∧ (∀ fields gs, assocLookup fields "projects" = some (Json.obj gs) →
        list_projects_reconcile (Json.obj fields) = Except.ok (Json.obj gs))
    ∧ (∀ fields, assocLookup fields "projects" = some Json.null →
        list_projects_reconcile (Json.obj fields) = Except.error pyLenTypeError)
    ∧ (∀ fields b, assocLookup fields "projects" = some (Json.bool b) →
        list_projects_reconcile (Json.obj fields) = Except.error pyLenTypeError)
    ∧ (∀ fields n, assocLookup fields "projects" = some (Json.num n) →
        list_projects_reconcile (Json.obj fields) = Except.error pyLenTypeError)
    ∧ (∀ fields, assocLookup fields "projects" = none →
        list_projects_reconcile (Json.obj fields) = Except.ok (Json.arr []))
    ∧ list_projects_reconcile Json.null = Except.ok (Json.arr [])
    ∧ (∀ b, list_projects_reconcile (Json.bool b) = Except.ok (Json.arr []))
    ∧ (∀ n, list_projects_reconcile (Json.num n) = Except.ok (Json.arr []))
    ∧ (∀ s, list_projects_reconcile (Json.str s) = Except.ok (Json.arr []))
    ∧ (∀ xs, list_tags_reconcile (Json.arr xs) = Json.arr xs)
    ∧ (∀ fields v, assocLookup fields "tags" = some v →
        list_tags_reconcile (Json.obj fields) = v)
    ∧ (∀ fields, assocLookup fields "tags" = none →
        list_tags_reconcile (Json.obj fields) = Json.arr [])
    ∧ list_tags_reconcile Json.null = Json.arr []
    ∧ (∀ b, list_tags_reconcile (Json.bool b) = Json.arr [])
    ∧ (∀ n, list_tags_reconcile (Json.num n) = Json.arr [])
    ∧ (∀ s, list_tags_reconcile (Json.str s) = Json.arr [])
    ∧ (∀ xs, list_habits_reconcile (Json.arr xs) = Json.arr xs)
    ∧ (∀ fields, list_habits_reconcile (Json.obj fields) = Json.arr [])
    ∧ list_habits_reconcile Json.null = Json.arr []
    ∧ (∀ b, list_habits_reconcile (Json.bool b) = Json.arr [])
    ∧ (∀ n, list_habits_reconcile (Json.num n) = Json.arr [])
    ∧ (∀ s, list_habits_reconcile (Json.str s) = Json.arr []) := by
  refine ⟨fun xs => rfl,
    fun fields xs h => ?_, fun fields s h => ?_, fun fields gs h => ?_,
    fun fields h => ?_, fun fields b h => ?_, fun fields n h => ?_,
    fun fields h => ?_, rfl, fun b => rfl, fun n => rfl, fun s => rfl,
    fun xs => rfl,
    fun fields xs h => ?_, fun fields s h => ?_, fun fields gs h => ?_,
    fun fields h => ?_, fun fields b h => ?_, fun fields n h => ?_,
    fun fields h => ?_, rfl, fun b => rfl, fun n => rfl, fun s => rfl,
    fun xs => rfl, fun fields v h => ?_, fun fields h => ?_, rfl,
    fun b => rfl, fun n => rfl, fun s => rfl,
    fun xs => rfl, fun fields => rfl, rfl,
    fun b => rfl, fun n => rfl, fun s => rfl⟩ <;>
  simp [list_tasks_reconcile, list_projects_reconcile, list_tags_reconcile,
    pyLen, h]

/-- Witness for `list_reconcile_shapes`: a concrete wrapped response
returning the inner array, and a concrete unsized field value raising. -/
theorem list_reconcile_shapes_witness :
    assocLookup [("tasks", Json.arr [Json.str "a"])] "tasks"
        = some (Json.arr [Json.str "a"])
    ∧ list_tasks_reconcile (Json.obj [("tasks", Json.arr [Json.str "a"])])
        = Except.ok (Json.arr [Json.str "a"])
    ∧ assocLookup [("tasks", Json.num 5)] "tasks" = some (Json.num 5)
    ∧ list_tasks_reconcile (Json.obj [("tasks", Json.num 5)])
        = Except.error pyLenTypeError :=
  ⟨rfl, list_reconcile_shapes.2.1 _ _ rfl, rfl,
    (list_reconcile_shapes.2.2.2.2.2.2.1) _ _ rfl⟩

/-- Claim C8: the update_task PATCH body contains exactly the supplied
fields — with only title supplied the body is the single-field mapping
title; nothing is sent as null, the key sequence is exactly the supplied
keys, and the tool never forwards a projectId. -/
theorem update_task_exact_fields :
    (∀ t, update_task_tool (some t) none none none = [("title", Json.str t)])
    ∧ update_task_tool none none none none = []
    ∧ (∀ title start note : Option String, ∀ priority : Option Int,
        (update_task_tool title start note priority).map Prod.fst
          = (title.map fun _ => "title").toList
            ++ (start.map fun _ => "start").toList
            ++ (note.map fun _ => "note").toList
            ++ (priority.map fun _ => "priority").toList)
    ∧ (∀ title start note : Option String, ∀ priority : Option Int,
        assocLookup (update_task_tool title start note priority) "title"
            = title.map Json.str
        ∧ assocLookup (update_task_tool title start note priority) "start"
            = start.map Json.str
        ∧ assocLookup (update_task_tool title start note priority) "note"
            = note.map Json.str
        ∧ assocLookup (update_task_tool title start note priority) "priority"
            = priority.map Json.num
        ∧ assocLookup (update_task_tool title start note priority) "projectId"
            = none) := by
  refine ⟨fun t => rfl, rfl, fun title start note priority => ?_,
    fun title start note priority => ?_⟩
  · rcases title with _ | t <;> rcases start with _ | s <;>
      rcases note with _ | n <;> rcases priority with _ | p <;> rfl
  · rcases title with _ | t <;> rcases start with _ | s <;>
      rcases note with _ | n <;> rcases priority with _ | p <;>
      refine ⟨rfl, rfl, rfl, rfl, rfl⟩

/-- Claim C6: removing a tag that is absent from the current tag set of
the task performs only the initial read — no write round trip — leaves the
remote state unmodified, and returns the task (its tags) unchanged. -/
theorem remove_task_tag_absent_noop (st : RemoteTaskTags) (task_id tag_id : String)
    (h : tag_id ∉ getTaskTags st task_id) :
    remove_task_tag st task_id tag_id
      = { state := st, events := [TagEvent.read task_id],
          taskTags := getTaskTags st task_id } := by
  simp [remove_task_tag, h]

/-- Witness for `remove_task_tag_absent_noop` on a concrete state. -/
theorem remove_task_tag_absent_noop_witness :
    ("G-9" ∉ getTaskTags [("T-1", ["G-1"])] "T-1")
    ∧ remove_task_tag [("T-1", ["G-1"])] "T-1" "G-9"
        = { state := [("T-1", ["G-1"])], events := [TagEvent.read "T-1"],
            taskTags := getTaskTags [("T-1", ["G-1"])] "T-1" } :=
  ⟨by decide, remove_task_tag_absent_noop _ _ _ (by decide)⟩

/-- Claim C5: starting from a state whose tag list for the task holds the
tag at most once (tag lists model sets), one add_task_tag call and a
second consecutive one both leave the tag present exactly once, in the
remote state and in the returned task; each call starts with the read and
issues the full-replacement write exactly when the tag was absent — in
particular the second call issues no write. -/
theorem add_task_tag_idempotent (st : RemoteTaskTags) (task_id tag_id : String)
    (h : (getTaskTags st task_id).count tag_id ≤ 1) :
    (getTaskTags (add_task_tag st task_id tag_id).state task_id).count tag_id = 1
    ∧ (getTaskTags
        (add_task_tag (add_task_tag st task_id tag_id).state task_id tag_id).state
        task_id).count tag_id = 1
    ∧ (add_task_tag st task_id tag_id).taskTags.count tag_id = 1
    ∧ (add_task_tag (add_task_tag st task_id tag_id).state task_id tag_id).taskTags.count
        tag_id = 1
    ∧ (add_task_tag st task_id tag_id).events
        = (if tag_id ∈ getTaskTags st task_id then [TagEvent.read task_id]
           else [TagEvent.read task_id,
                 TagEvent.write task_id (getTaskTags st task_id ++ [tag_id])])
    ∧ (add_task_tag (add_task_tag st task_id tag_id).state task_id tag_id).events
        = [TagEvent.read task_id] := by
  by_cases hmem : tag_id ∈ getTaskTags st task_id
  · have hcount : (getTaskTags st task_id).count tag_id = 1 := by
      have := List.count_pos_iff.mpr hmem
      omega
    refine ⟨?_, ?_, ?_, ?_, ?_, ?_⟩ <;>
      simp only [add_task_tag_mem _ _ _ hmem, if_pos hmem] <;>
      exact hcount
  · have hzero : (getTaskTags st task_id).count tag_id = 0 :=
      List.count_eq_zero.mpr hmem
    have hnew : getTaskTags (set_task_tags st task_id (getTaskTags st task_id ++ [tag_id]))
        task_id = getTaskTags st task_id ++ [tag_id] :=
      getTaskTags_tagsUpdate st task_id _
    have hcount1 : (getTaskTags st task_id ++ [tag_id]).count tag_id = 1 := by
      simp [List.count_append, hzero]
    have hmem2 : tag_id ∈ getTaskTags
        (set_task_tags st task_id (getTaskTags st task_id ++ [tag_id])) task_id := by
      rw [hnew]; simp
    refine ⟨?_, ?_, ?_, ?_, ?_, ?_⟩ <;>
      simp only [add_task_tag_not_mem _ _ _ hmem] <;>
      (try simp only [add_task_tag_mem _ _ _ hmem2]) <;>
      (try simp only [if_neg hmem]) <;>
      (try simp only [hnew]) <;>
      exact hcount1

/-- Witness for `add_task_tag_idempotent` on a concrete state. -/
theorem add_task_tag_idempotent_witness :
    ((getTaskTags [("T-1", ["G-1"])] "T-1").count "G-2" ≤ 1)
    ∧ (getTaskTags (add_task_tag [("T-1", ["G-1"])] "T-1" "G-2").state "T-1").count "G-2"
        = 1 :=
  ⟨by decide, (add_task_tag_idempotent [("T-1", ["G-1"])] "T-1" "G-2" (by decide)).1⟩

theorem projectId_not_in_optStrField (key : String) (o : Option String) (v : Json)
    (hk : ¬ key = "projectId") : ("projectId", v) ∉ optStrField key o := by
  rcases o with _ | s
  · simp [optStrField]
  · by_cases h : s = ""
    · simp [optStrField, h]
    · simp only [optStrField, if_neg h, List.mem_singleton, Prod.mk.injEq, not_and]
      exact fun hkey _ => hk hkey.symm

theorem projectId_not_in_fixed (t : String) (p : Int) (st nt par : Option String)
    (v : Json) :
    ("projectId", v) ∉ ([("title", Json.str t), ("priority", Json.num p)]
        ++ optStrField "start" st ++ optStrField "note" nt)
    ∧ ("projectId", v) ∉ optStrField "parent" par := by
  refine ⟨?_, projectId_not_in_optStrField "parent" par v (by decide)⟩
  intro hv
  rcases List.mem_append.mp hv with hv | hv
  · rcases List.mem_append.mp hv with hv | hv
    · simp [Prod.mk.injEq] at hv
    · exact projectId_not_in_optStrField "start" st v (by decide) hv
  · exact projectId_not_in_optStrField "note" nt v (by decide) hv

theorem project_field_some_ok (s : String) (h1 : pyStrip s ≠ "")
    (h2 : pyStartsWith s "P-") :
    project_field (some s) = ([("projectId", Json.str s)], []) := by
  have hse : s ≠ "" := fun he => h1 (by rw [he]; rfl)
  simp [project_field, hse, h1, h2]

theorem project_field_not_attached (pid : Option String)
    (h : ¬ ∃ s, pid = some s ∧ pyStrip s ≠ "" ∧ pyStartsWith s "P-") :
    (project_field pid).1 = [] ∧ (project_field pid).2 ≠ [] := by
  rcases pid with _ | s
  · exact ⟨rfl, by simp [project_field]⟩
  · push_neg at h
    have hs := h s rfl
    by_cases hstrip : pyStrip s = ""
    · by_cases hse : s = ""
      · subst hse
        exact ⟨rfl, by simp [project_field]⟩
      · simp [project_field, hse, hstrip]
    · have hsw := hs hstrip
      have hse : s ≠ "" := fun he => hstrip (by rw [he]; rfl)
      simp [project_field, hse, hstrip, hsw]

/-- Claim C4: the create_task body contains a projectId field exactly
when the supplied project id is non-empty after trimming and starts with
"P-"; in every other case (including absence) a warning is recorded and
no projectId is attached; the body is always built with its title (the
call never fails on account of the project id); and an empty-string
project id yields the same body as no project id, both at the client and
through the tool dispatcher. -/
theorem create_task_project_gate :
    (∀ (t : String) (st nt : Option String) (p : Int) (par pid : Option String),
        ((∃ v, ("projectId", v) ∈ (create_task_data t st nt p pid par).data)
          ↔ ∃ s, pid = some s ∧ pyStrip s ≠ "" ∧ pyStartsWith s "P-"))
    ∧ (∀ (t : String) (st nt : Option String) (p : Int) (par pid : Option String),
        ((create_task_data t st nt p pid par).warnings = []
          ↔ ∃ s, pid = some s ∧ pyStrip s ≠ "" ∧ pyStartsWith s "P-"))
    ∧ (∀ (t : String) (st nt : Option String) (p : Int) (par : Option String),
        (create_task_data t st nt p (some "") par).data
          = (create_task_data t st nt p none par).data)
    ∧ (∀ (t : String) (st nt : Option String) (p : Int) (par : Option String),
        create_task_tool t st nt p (some "") par = create_task_tool t st nt p none par)
    ∧ (∀ (t : String) (st nt : Option String) (p : Int) (par pid : Option String),
        ("title", Json.str t) ∈ (create_task_data t st nt p pid par).data) := by
  refine ⟨?_, ?_, ?_, ?_, ?_⟩
  · intro t st nt p par pid
    constructor
    · rintro ⟨v, hv⟩
      by_contra hc
      have h0 := (project_field_not_attached pid hc).1
      simp only [create_task_data, h0, List.append_nil] at hv
      rcases List.mem_append.mp hv with hv | hv
      · exact (projectId_not_in_fixed t p st nt par v).1 hv
      · exact (projectId_not_in_fixed t p st nt par v).2 hv
    · rintro ⟨s, rfl, h1, h2⟩
      refine ⟨Json.str s, ?_⟩
      simp [create_task_data, project_field_some_ok s h1 h2]
  · intro t st nt p par pid
    constructor
    · intro hw
      by_contra hc
      exact (project_field_not_attached pid hc).2 hw
    · rintro ⟨s, rfl, h1, h2⟩
      simp [create_task_data, project_field_some_ok s h1 h2]
  · intro t st nt p par
    rfl
  · intro t st nt p par
    rfl
  · intro t st nt p par pid
    simp [create_task_data]

/-- Witness for `create_task_project_gate` at a valid and attached
project id. -/
theorem create_task_project_gate_witness :
    (∃ v, ("projectId", v) ∈ (create_task_data "T" none none 1 (some "P-1") none).data)
    ∧ (create_task_data "T" none none 1 (some "P-1") none).warnings = [] :=
  ⟨(create_task_project_gate.1 "T" none none 1 none (some "P-1")).mpr
      ⟨"P-1", rfl, by decide, by decide⟩,
    (create_task_project_gate.2.1 "T" none none 1 none (some "P-1")).mpr
      ⟨"P-1", rfl, by decide, by decide⟩⟩

/-- Claim C7 counterexample: with the bearer-token variable unset, a tool
call fails by an exception escaping the dispatcher (`api = get_api()`
runs before the `try` block), not by an error-text result. -/
theorem call_tool_missing_token_escapes :
    call_tool none (fun _ => Except.ok Json.null) "get_task"
      = Except.error tokenMissingMsg := rfl

/-- Claim C7 amended: provided the bearer token is configured, every tool
call returns a result (no exception escapes the dispatcher), and a name
mapped to no operation yields the error text
"Error: Unknown tool: <name>", which contains the literal offending
name; with the token missing, the configuration exception from get_api
propagates out of the dispatcher (see the counterexample). -/
theorem unknown_tool_error_result (t : String) (run : String → Except String Json)
    (name : String) (htok : ¬ t = "") (hname : name ∉ knownToolNames) :
    (∀ n : String, ∃ o : ToolOutcome, call_tool (some t) run n = Except.ok o)
    ∧ call_tool (some t) run name
        = Except.ok (ToolOutcome.errorText ("Error: Unknown tool: " ++ name))
    ∧ ∃ pre : String, "Error: Unknown tool: " ++ name = pre ++ name := by
  have hapi : get_api (some t) = Except.ok () := by simp [get_api, htok]
  simp only [knownToolNames, List.mem_cons, List.not_mem_nil, or_false, not_or] at hname
  obtain ⟨h1, h2, h3, h4, h5, h6, h7, h8, h9, h10, h11, h12, h13, h14, h15, h16⟩ := hname
  refine ⟨?_, ?_, ⟨"Error: Unknown tool: ", rfl⟩⟩
  · intro n
    simp only [call_tool, hapi]
    exact ⟨_, rfl⟩
  · simp only [call_tool, hapi, execute_tool, h1, h2, h3, h4, h5, h6, h7, h8, h9,
      h10, h11, h12, h13, h14, h15, h16, if_false]
    rfl

/-- Witness for `unknown_tool_error_result` at a concrete unknown name. -/
theorem unknown_tool_error_result_witness :
    ¬ ("tok" : String) = ""
    ∧ "frobnicate" ∉ knownToolNames
    ∧ call_tool (some "tok") (fun _ => Except.ok Json.null) "frobnicate"
        = Except.ok (ToolOutcome.errorText "Error: Unknown tool: frobnicate") :=
  ⟨by decide, by decide,
    (unknown_tool_error_result "tok" (fun _ => Except.ok Json.null) "frobnicate"
      (by decide) (by decide)).2.1⟩

end SingularityMCP
